import Mathlib

/-!
# Verification of the research-podcast-generator pipeline

A shallow embedding of the Python application `app.py` of the
research-podcast-generator repository, together with proofs of the
specification's claims about it.

Strings from the program are modelled as Lean `String`s; where the code
slices a string by character indices (the TTS chunking loop), the string's
character list (`String.data`) is used.  External effects (the filesystem,
the Gemini LLM call, the Murf TTS call and the HTTP downloads) are modelled
as oracles passed in explicitly; thrown exceptions of those calls are
modelled as explicit outcome constructors.
-/

namespace PodcastGen

/-!
## Speech-synthesizer chunking

`app.py` lines 311-313:

  max_chunk_length = 3000
  chunks = [podcast_script[i:i+max_chunk_length]
            for i in range(0, len(podcast_script), max_chunk_length)]

Python slices a string by characters, so we model the script as a
`List Char` and the comprehension as repeated take/drop with step 3000.
-/

/-- The chunk size fixed by the code (`max_chunk_length = 3000`). -/
def max_chunk_length : Nat := 3000

/-- The chunking of the script performed at `app.py:312`:
`[s[i:i+3000] for i in range(0, len(s), 3000)]`. -/
def chunkScript : List Char → List (List Char)
  | [] => []
  | a :: rest => ((a :: rest).take max_chunk_length) :: chunkScript (rest.drop (max_chunk_length - 1))
termination_by s => s.length
decreasing_by
  simp only [List.length_drop, List.length_cons]
  omega

theorem chunkScript_nil : chunkScript [] = [] := by
  simp [chunkScript]

theorem chunkScript_cons (a : Char) (rest : List Char) :
    chunkScript (a :: rest) =
      ((a :: rest).take max_chunk_length) :: chunkScript (rest.drop (max_chunk_length - 1)) := by
  rw [chunkScript]

theorem chunkScript_eq_nil_iff (s : List Char) : chunkScript s = [] ↔ s = [] := by
  cases s with
  | nil => simp [chunkScript_nil]
  | cons a rest => simp [chunkScript_cons]

/-- Concatenating the chunks reproduces the script. -/
theorem chunkScript_join (s : List Char) : (chunkScript s).flatten = s := by
  induction s using chunkScript.induct with
  | case1 => simp [chunkScript_nil]
  | case2 a rest ih =>
    rw [chunkScript_cons]
    have hdrop : rest.drop (max_chunk_length - 1) = (a :: rest).drop max_chunk_length := by
      simp [max_chunk_length]
    rw [List.flatten_cons, ih, hdrop, List.take_append_drop]

/-- The number of chunks is `ceil (L / 3000)`, i.e. `(L + 2999) / 3000`. -/
theorem chunkScript_length (s : List Char) :
    (chunkScript s).length = (s.length + (max_chunk_length - 1)) / max_chunk_length := by
  induction s using chunkScript.induct with
  | case1 => simp [chunkScript_nil, max_chunk_length]
  | case2 a rest ih =>
    rw [chunkScript_cons]
    simp only [List.length_cons, ih, List.length_drop]
    simp only [max_chunk_length]
    omega

/-- Every chunk is nonempty and no longer than the chunk size. -/
theorem chunkScript_mem_length (s : List Char) :
    ∀ c ∈ chunkScript s, 0 < c.length ∧ c.length ≤ max_chunk_length := by
  induction s using chunkScript.induct with
  | case1 => simp [chunkScript_nil]
  | case2 a rest ih =>
    rw [chunkScript_cons]
    intro c hc
    rcases List.mem_cons.mp hc with h | h
    · subst h
      constructor
      · simp [max_chunk_length]
      · simp
    · exact ih c h

/-- Every chunk except possibly the last has length exactly the chunk size. -/
theorem chunkScript_dropLast_length (s : List Char) :
    ∀ c ∈ (chunkScript s).dropLast, c.length = max_chunk_length := by
  induction s using chunkScript.induct with
  | case1 => simp [chunkScript_nil]
  | case2 a rest ih =>
    rw [chunkScript_cons]
    intro c hc
    cases htail : chunkScript (rest.drop (max_chunk_length - 1)) with
    | nil => rw [htail] at hc; simp at hc
    | cons b bs =>
      rw [htail] at hc
      rw [List.dropLast_cons_of_ne_nil (by simp)] at hc
      rcases List.mem_cons.mp hc with h | h
      · subst h
        have hne : rest.drop (max_chunk_length - 1) ≠ [] := by
          intro hnil
          rw [hnil, chunkScript_nil] at htail
          exact List.noConfusion htail
        have hlen : max_chunk_length - 1 < rest.length := by
          by_contra hle
          push_neg at hle
          exact hne (List.drop_eq_nil_of_le hle)
        rw [List.length_take]
        simp only [List.length_cons]
        omega
      · exact ih c (htail ▸ h)

/-!
## Script generator (`generate_podcast_script`, `app.py` lines 139-230)

The Gemini response object is inspected with `hasattr`, so we model it as a
record of optional shapes: an optional direct `text` field, an optional list
of parts (each part optionally carrying a `text` attribute), and an optional
list of candidates (each candidate optionally carrying `content.parts`).
-/

/-- Model of the value returned by `model.generate_content`. -/
structure GenResponse where
  text : Option String
  parts : Option (List (Option String))
  candidates : Option (List (Option (List (Option String))))
deriving DecidableEq

/-- The pattern `parts_text = [part.text for part in ... if hasattr(part, 'text')]`
followed by `if parts_text: return ' '.join(parts_text)`: keep the parts
that carry a text, and if any remain join them with single spaces. -/
def joinTexts (ps : List (Option String)) : Option String :=
  let parts_text := ps.filterMap id
  if parts_text.isEmpty then none else some (String.intercalate " " parts_text)

/-- The candidate scan at `app.py:187-194`: the first candidate possessing
`content.parts` whose parts yield at least one text is returned, the texts
joined with single spaces. -/
def tryCandidates (r : GenResponse) : Option String :=
  match r.candidates with
  | none => none
  | some cs => cs.findSome? fun c => c.bind joinTexts

/-- The response normalization at `app.py:177-194`: check `response.text`,
then `response.parts`, then `response.candidates`, returning at the first
shape that yields text. Returns `none` when no shape matches (the Python
code then falls through to the retry logic). -/
def normalize (r : GenResponse) : Option String :=
  match r.text with
  | some t => some t
  | none =>
    match r.parts with
    | some ps =>
      match joinTexts ps with
      | some j => some j
      | none => tryCandidates r
    | none => tryCandidates r

/-- Outcome of one `model.generate_content` call: either it returns a
response object, or it throws. -/
inductive AttemptOutcome where
  | ok (r : GenResponse)
  | raised
deriving DecidableEq

/-- An attempt fails when the call throws, or when the response matches
none of the recognized shapes. -/
def attemptFails : AttemptOutcome → Bool
  | .raised => true
  | .ok r => (normalize r).isNone

/-- `max_retries = 3` at `app.py:164`. -/
def max_retries : Nat := 3

/-- The retry loop of `app.py:167-221`, as a function of the attempt index
and the number of attempts remaining (including the current one).  The
oracle `call` gives the outcome of each attempt.  Returns the script (if an
attempt succeeded) together with the list of `time.sleep` durations
executed, in order.  A sleep of `2 ^ attempt` happens after a failed
attempt in both the malformed-response branch (`app.py:200-204`) and the
exception branch (`app.py:214-221`), in each case only when another attempt
remains. -/
def loopFrom (call : Nat → AttemptOutcome) : Nat → Nat → Option String × List Nat
  | _, 0 => (none, [])
  | attempt, rem + 1 =>
    match call attempt with
    | .ok r =>
      match normalize r with
      | some t => (some t, [])
      | none =>
        match rem with
        | 0 => (none, [])
        | _ + 1 =>
          let p := loopFrom call (attempt + 1) rem
          (p.1, 2 ^ attempt :: p.2)
    | .raised =>
      match rem with
      | 0 => (none, [])
      | _ + 1 =>
        let p := loopFrom call (attempt + 1) rem
        (p.1, 2 ^ attempt :: p.2)

/-- The guard `if not text or not text.strip()` at `app.py:141`: `text` is
falsy exactly when it is empty, and `text.strip()` is falsy exactly when
every character is whitespace, so together the guard holds iff every
character of `text` is whitespace (vacuously so for the empty string). -/
def blankText (text : String) : Bool :=
  text.data.all Char.isWhitespace

/-- `generate_podcast_script` (`app.py:139-230`): rejects empty or
whitespace-only text (`app.py:141-143`), otherwise runs up to
`max_retries` attempts.  The result pairs the returned script (or `none`)
with the sequence of backoff sleep durations. -/
def generate_podcast_script (text : String) (call : Nat → AttemptOutcome) :
    Option String × List Nat :=
  if blankText text then (none, [])
  else loopFrom call 0 max_retries

/-!
## PDF extractor (`extract_text_from_pdf`, `app.py` lines 82-115)

The filesystem is an oracle: for each path it says whether the file exists
and, when `fitz` can open it, gives the list of per-page texts in page
order (`none` models an unreadable file, i.e. `fitz.open` or page reading
throwing).  The `magic` MIME check at `app.py:96-104` only prints warnings
and never changes the result, so it does not appear in the model.
-/

/-- Oracle for the pieces of the filesystem the extractor reads. -/
structure FileSys where
  path_exists : String → Bool
  pages : String → Option (List String)

/-- The check `pdf_path.lower().endswith('.pdf')` at `app.py:91` (and the
same test on `file.filename` at `app.py:252`): lowercase the characters and
test for the suffix `.pdf`. -/
def hasPdfExtension (p : String) : Bool :=
  ".pdf".data.isSuffixOf (p.data.map Char.toLower)

/-- `extract_text_from_pdf` (`app.py:82-115`): `none` when the file is
missing, lacks a `.pdf` extension (case-insensitively), or is unreadable;
otherwise the concatenation of the per-page texts in page order. -/
def extract_text_from_pdf (fs : FileSys) (pdf_path : String) : Option String :=
  if fs.path_exists pdf_path = false then none
  else if hasPdfExtension pdf_path = false then none
  else
    match fs.pages pdf_path with
    | none => none
    | some ps => some (String.join ps)

/-!
## Web handler (`generate_podcast`, `app.py` lines 240-374)

The request carries an optional `file` part (its filename), whether the
body is JSON, and the JSON body's optional `source` field.  The
environment bundles the oracles for extraction, the LLM call, Murf
availability, the per-chunk TTS events and the timestamped audio filename.
Each chunk of the TTS loop (`app.py:318-341`) either fails to generate,
generates a URL whose download fails, generates a URL whose download
succeeds with some bytes, or throws (from `generate` before `audio_url` is
reassigned, or from the download after it is).
-/

/-- The parts of the incoming request the handler reads. -/
structure HandlerRequest where
  file : Option String
  is_json : Bool
  source : Option String

/-- Outcome of processing one chunk in the TTS loop. -/
inductive ChunkEvent where
  | genFail
  | genOkDlFail (url : String)
  | genOkDlOk (url : String) (data : List Nat)
  | genRaise
  | dlRaise (url : String)

/-- Oracles for the handler's external effects. -/
structure Env where
  extract_pdf : Option String
  extract_url : String → Option String
  llm_call : Nat → AttemptOutcome
  murf_available : Bool
  tts_events : Nat → ChunkEvent
  audio_filename : String

/-- Which pipeline stages a request execution invoked. -/
structure Stages where
  extraction : Bool
  llm : Bool
  tts : Bool
deriving DecidableEq

/-- The JSON body of the HTTP response, plus its status code.  `none` in
`audio_url` means the field is absent; `some none` means it is present
with value `null`. -/
structure HttpResponse where
  code : Nat
  error : Option String
  status : Option String
  script : Option String
  audio_url : Option (Option String)
  warning : Option String
deriving DecidableEq

/-- A 400/500 error response `jsonify({'error': msg}), code`. -/
def errResponse (code : Nat) (msg : String) : HttpResponse :=
  { code := code, error := some msg, status := none, script := none,
    audio_url := none, warning := none }

/-- The chunk loop of `app.py:318-341` over the remaining chunks, carrying
the chunk index, the `audio_url` variable and the accumulated
`all_audio_data` bytes.  Returns whether an exception escaped the loop,
the final `audio_url` value, and the accumulated bytes. -/
def ttsLoop (events : Nat → ChunkEvent) :
    List (List Char) → Nat → Option String → List Nat → Bool × Option String × List Nat
  | [], _, u, d => (false, u, d)
  | _ :: rest, i, u, d =>
    match events i with
    | .genFail => ttsLoop events rest (i + 1) u d
    | .genOkDlFail url => ttsLoop events rest (i + 1) (some url) d
    | .genOkDlOk url data => ttsLoop events rest (i + 1) (some url) (d ++ data)
    | .genRaise => (true, u, d)
    | .dlRaise url => (true, some url, d)

/-- The speech-synthesis part of the handler (`app.py:296-368`), given the
generated script: the Murf-unavailable early return, the chunk loop inside
`try`, the empty-audio early return, and the final return (which, after a
caught exception, reports whatever `audio_url` currently holds and no
warning). -/
def ttsPhase (env : Env) (script : String) : HttpResponse :=
  if env.murf_available = false then
    { code := 200, error := none, status := some "success", script := some script,
      audio_url := some none,
      warning := some "Text-to-speech service not available" }
  else
    match ttsLoop env.tts_events (chunkScript script.data) 0 none [] with
    | (true, u, _) =>
      { code := 200, error := none, status := some "success", script := some script,
        audio_url := some u, warning := none }
    | (false, _, []) =>
      { code := 200, error := none, status := some "success", script := some script,
        audio_url := some none,
        warning := some "Failed to generate audio. The text might be too long or contain unsupported characters." }
    | (false, _, _ :: _) =>
      { code := 200, error := none, status := some "success", script := some script,
        audio_url := some (some ("/static/audio/" ++ env.audio_filename)),
        warning := none }

/-- The handler from the extracted-text check onward (`app.py:277-368`):
the falsy check on `paper_text`, script generation with its 500 on a falsy
script, then the TTS phase. -/
def afterExtract (env : Env) (paper_text : Option String) (st : Stages) :
    HttpResponse × Stages :=
  match paper_text with
  | none => (errResponse 400 "Could not extract text from the source.", st)
  | some t =>
    if t = "" then (errResponse 400 "Could not extract text from the source.", st)
    else
      let st := { st with llm := true }
      match (generate_podcast_script t env.llm_call).1 with
      | none => (errResponse 500 "Failed to generate podcast script", st)
      | some s =>
        if s = "" then (errResponse 500 "Failed to generate podcast script", st)
        else if env.murf_available = false then (ttsPhase env s, st)
        else (ttsPhase env s, { st with tts := true })

/-- The `POST /generate` handler (`app.py:240-374`): the file branch with
its filename and extension checks, the JSON branch with its `source`
check, and the shared tail.  Paired with the set of stages invoked. -/
def generate_podcast (env : Env) (req : HandlerRequest) : HttpResponse × Stages :=
  let st0 : Stages := ⟨false, false, false⟩
  match req.file with
  | some fname =>
    if fname = "" then (errResponse 400 "No selected file", st0)
    else if hasPdfExtension fname then
      afterExtract env env.extract_pdf { st0 with extraction := true }
    else (errResponse 400 "Invalid file type. Please upload a PDF.", st0)
  | none =>
    if req.is_json then
      match req.source with
      | none => (errResponse 400 "No URL provided", st0)
      | some url =>
        if url = "" then (errResponse 400 "No URL provided", st0)
        else afterExtract env (env.extract_url url) { st0 with extraction := true }
    else afterExtract env none st0

/-- Evaluation helper: a nonempty script no longer than the chunk size is
a single chunk. -/
theorem chunkScript_short (s : List Char) (hne : s ≠ []) (h : s.length ≤ max_chunk_length) :
    chunkScript s = [s] := by
  cases s with
  | nil => exact absurd rfl hne
  | cons a rest =>
    rw [chunkScript_cons]
    have hdrop : rest.drop (max_chunk_length - 1) = [] := by
      apply List.drop_eq_nil_of_le
      simp only [List.length_cons] at h
      omega
    rw [hdrop, chunkScript_nil, List.take_of_length_le h]

theorem chunkScript_getLast (s : List Char) (c : List Char)
    (h : (chunkScript s).getLast? = some c) : 0 < c.length ∧ c.length ≤ max_chunk_length := by
  have hm : c ∈ chunkScript s := by
    rcases List.mem_getLast?_eq_getLast (l := chunkScript s) (x := c) h with ⟨hne, hc⟩
    exact hc ▸ List.getLast_mem hne
  exact chunkScript_mem_length s c hm

/-- **C1.** For every script string `s` of length `L` and the fixed chunk
size `C = 3000`, the chunking at `app.py:311-313` produces exactly
`ceil (L / C)` chunks, every chunk except possibly the last has length
exactly `C`, the last chunk has length in `(0, C]`, and concatenating the
chunks in order reproduces `s` exactly. -/
theorem chunking_of_script_correct (s : String) :
    (chunkScript s.data).length = (s.data.length + (max_chunk_length - 1)) / max_chunk_length ∧
    (∀ c ∈ (chunkScript s.data).dropLast, c.length = max_chunk_length) ∧
    (∀ c, (chunkScript s.data).getLast? = some c →
        0 < c.length ∧ c.length ≤ max_chunk_length) ∧
    (chunkScript s.data).flatten = s.data :=
  ⟨chunkScript_length s.data, chunkScript_dropLast_length s.data,
    fun c hc => chunkScript_getLast s.data c hc, chunkScript_join s.data⟩

/-- Witness for C1 at the concrete script `"ab"`, whose chunking is the
single chunk `['a', 'b']`. -/
theorem chunking_of_script_correct_witness :
    (chunkScript "ab".data).flatten = "ab".data ∧
    (0 < ("ab".data : List Char).length ∧ ("ab".data : List Char).length ≤ max_chunk_length) :=
  ⟨(chunking_of_script_correct "ab").2.2.2,
    (chunking_of_script_correct "ab").2.2.1 "ab".data
      (by rw [chunkScript_short "ab".data (by decide) (by decide)]; rfl)⟩

/-!
## Retry-loop lemmas
-/

theorem attemptFails_iff (o : AttemptOutcome) :
    attemptFails o = true ↔ (o = .raised ∨ ∃ r, o = .ok r ∧ normalize r = none) := by
  cases o with
  | raised => simp [attemptFails]
  | ok r => simp [attemptFails, Option.isNone_iff_eq_none]

theorem attemptFails_eq_false (o : AttemptOutcome) (h : attemptFails o = false) :
    ∃ r t, o = .ok r ∧ normalize r = some t := by
  cases o with
  | raised => simp [attemptFails] at h
  | ok r =>
    simp only [attemptFails, Option.isNone_eq_false_iff, Option.isSome_iff_exists] at h
    obtain ⟨t, ht⟩ := h
    exact ⟨r, t, rfl, ht⟩

/-- A failed attempt with at least one attempt remaining sleeps `2 ^ attempt`
and continues. -/
theorem loopFrom_step_fail (call : Nat → AttemptOutcome) (a n : Nat)
    (h : attemptFails (call a) = true) :
    loopFrom call a (n + 2) =
      ((loopFrom call (a + 1) (n + 1)).1, 2 ^ a :: (loopFrom call (a + 1) (n + 1)).2) := by
  rcases (attemptFails_iff (call a)).mp h with hc | ⟨r, hc, hn⟩
  · simp [loopFrom, hc]
  · simp [loopFrom, hc, hn]

/-- A failed final attempt ends the loop with no further sleep. -/
theorem loopFrom_last_fail (call : Nat → AttemptOutcome) (a : Nat)
    (h : attemptFails (call a) = true) :
    loopFrom call a 1 = (none, []) := by
  rcases (attemptFails_iff (call a)).mp h with hc | ⟨r, hc, hn⟩
  · simp [loopFrom, hc]
  · simp [loopFrom, hc, hn]

/-- A successful attempt returns its normalized text at once. -/
theorem loopFrom_step_ok (call : Nat → AttemptOutcome) (a n : Nat) (r : GenResponse)
    (t : String) (hc : call a = .ok r) (hn : normalize r = some t) :
    loopFrom call a (n + 1) = (some t, []) := by
  simp [loopFrom, hc, hn]

/-- The final attempt never sleeps, whatever its outcome. -/
theorem loopFrom_one_sleeps (call : Nat → AttemptOutcome) (a : Nat) :
    (loopFrom call a 1).2 = [] := by
  rcases hf : attemptFails (call a) with _ | _
  · obtain ⟨r, t, hc, hn⟩ := attemptFails_eq_false (call a) hf
    rw [loopFrom_step_ok call a 0 r t hc hn]
  · rw [loopFrom_last_fail call a hf]

/-- The backoff sleeps of a whole call sum to at most `1 + 2 = 3` seconds. -/
theorem generate_podcast_script_sleep_sum_le (text : String) (call : Nat → AttemptOutcome) :
    ((generate_podcast_script text call).2).sum ≤ 3 := by
  unfold generate_podcast_script
  by_cases htext : blankText text = true
  · simp [htext]
  · rw [if_neg htext]
    show ((loopFrom call 0 3).2).sum ≤ 3
    rcases h0 : attemptFails (call 0) with _ | _
    · obtain ⟨r, t, hc, hn⟩ := attemptFails_eq_false (call 0) h0
      rw [loopFrom_step_ok call 0 2 r t hc hn]
      simp
    · rw [loopFrom_step_fail call 0 1 h0]
      rcases h1 : attemptFails (call 1) with _ | _
      · obtain ⟨r, t, hc, hn⟩ := attemptFails_eq_false (call 1) h1
        rw [loopFrom_step_ok call 1 1 r t hc hn]
        simp
      · rw [loopFrom_step_fail call 1 0 h1]
        simp [loopFrom_one_sleeps call 2]

/-- **C2.** If the LLM call fails (malformed/empty response or thrown
error) on the first two attempts and succeeds on the third, the generator
returns the third attempt's result and the sleeps between attempts are
exactly 1 second then 2 seconds. -/
theorem retry_third_attempt_succeeds (text : String) (call : Nat → AttemptOutcome)
    (r : GenResponse) (t : String)
    (htext : blankText text = false)
    (h0 : attemptFails (call 0) = true)
    (h1 : attemptFails (call 1) = true)
    (h2 : call 2 = .ok r)
    (hn : normalize r = some t) :
    generate_podcast_script text call = (some t, [1, 2]) := by
  unfold generate_podcast_script
  rw [htext]
  show loopFrom call 0 3 = (some t, [1, 2])
  rw [loopFrom_step_fail call 0 1 h0, loopFrom_step_fail call 1 0 h1,
    loopFrom_step_ok call 2 0 r t h2 hn]
  norm_num

/-- Witness for C2: the first two attempts throw and the third returns a
response with a direct text field. -/
theorem retry_third_attempt_succeeds_witness :
    generate_podcast_script "hello"
        (fun i => if i < 2 then .raised else .ok ⟨some "S", none, none⟩) =
      (some "S", [1, 2]) :=
  retry_third_attempt_succeeds "hello"
    (fun i => if i < 2 then .raised else .ok ⟨some "S", none, none⟩)
    ⟨some "S", none, none⟩ "S" (by decide) (by decide) (by decide) rfl rfl

/-- **C7.** If every attempt fails (each either throws or yields a
response matching none of the recognized shapes), the generator returns
`none`; in this embedding the generator is a total function, so no
exception can propagate to its caller. -/
theorem retry_exhausted_returns_none (text : String) (call : Nat → AttemptOutcome)
    (h0 : attemptFails (call 0) = true)
    (h1 : attemptFails (call 1) = true)
    (h2 : attemptFails (call 2) = true) :
    (generate_podcast_script text call).1 = none := by
  unfold generate_podcast_script
  by_cases htext : blankText text = true
  · rw [if_pos htext]
  · rw [if_neg (by simpa using htext)]
    show (loopFrom call 0 3).1 = none
    rw [loopFrom_step_fail call 0 1 h0, loopFrom_step_fail call 1 0 h1]
    simp [loopFrom_last_fail call 2 h2]

/-- Witness for C7: every attempt throws. -/
theorem retry_exhausted_returns_none_witness :
    (generate_podcast_script "hello" (fun _ => .raised)).1 = none :=
  retry_exhausted_returns_none "hello" (fun _ => .raised) rfl rfl rfl

/-- **C8, counterexample.** No execution of the script generator sleeps a
total of 7 seconds: the final attempt never sleeps, so the total is at
most `1 + 2 = 3`. -/
theorem backoff_total_seven_impossible :
    ¬ ∃ (text : String) (call : Nat → AttemptOutcome),
        ((generate_podcast_script text call).2).sum = 7 := by
  rintro ⟨text, call, h⟩
  have hle := generate_podcast_script_sleep_sum_le text call
  omega

/-- **C8, amended.** Across the 3 attempts of one script-generation call
the backoff sleeps total at most `1 + 2 = 3` seconds (no sleep follows the
final attempt), and an execution in which the first two attempts fail
reaches exactly 3 seconds. -/
theorem backoff_total_at_most_three :
    (∀ (text : String) (call : Nat → AttemptOutcome),
        ((generate_podcast_script text call).2).sum ≤ 3) ∧
    ((generate_podcast_script "hello" (fun _ => .raised)).2).sum = 3 := by
  exact ⟨generate_podcast_script_sleep_sum_le, by decide⟩

/-- **C6.** The normalization checks the shapes in the fixed order: a
direct text field wins outright; otherwise a parts list that yields text
wins, its texts joined by single spaces; otherwise the candidate scan
decides, and there the first candidate whose `content.parts` yield text
wins, again joined by single spaces. -/
theorem normalize_shape_order (r : GenResponse) :
    (∀ t, r.text = some t → normalize r = some t) ∧
    (∀ ps, r.text = none → r.parts = some ps → (ps.filterMap id).isEmpty = false →
        normalize r = some (String.intercalate " " (ps.filterMap id))) ∧
    (r.text = none → r.parts.bind joinTexts = none → normalize r = tryCandidates r) ∧
    (∀ cs₁ c cs₂ j, r.candidates = some (cs₁ ++ c :: cs₂) →
        (∀ c' ∈ cs₁, c'.bind joinTexts = none) → c.bind joinTexts = some j →
        tryCandidates r = some j) := by
  refine ⟨?_, ?_, ?_, ?_⟩
  · intro t ht
    simp [normalize, ht]
  · intro ps ht hps hne
    simp [normalize, ht, hps, joinTexts, hne]
  · intro ht hjoin
    cases hps : r.parts with
    | none => simp [normalize, ht, hps]
    | some ps =>
      rw [hps] at hjoin
      have hj2 : joinTexts ps = none := hjoin
      simp [normalize, ht, hps, hj2]
  · intro cs₁ c cs₂ j hcs hnone hj
    unfold tryCandidates
    rw [hcs]
    show List.findSome? (fun c => c.bind joinTexts) (cs₁ ++ c :: cs₂) = some j
    have h₁ : cs₁.findSome? (fun c' => c'.bind joinTexts) = none :=
      List.findSome?_eq_none_iff.mpr hnone
    rw [List.findSome?_append, h₁, Option.none_or,
      List.findSome?_cons_of_isSome _ (by simp [hj])]
    exact hj

/-- Witness for C6: a response with both a direct text field and a parts
list is resolved by the text field; a response with only candidates is
resolved by the first yielding candidate. -/
theorem normalize_shape_order_witness :
    normalize ⟨some "T", some [some "P"], none⟩ = some "T" ∧
    tryCandidates ⟨none, none, some [none, some [some "A", some "B"]]⟩ = some "A B" :=
  ⟨(normalize_shape_order ⟨some "T", some [some "P"], none⟩).1 "T" rfl,
    (normalize_shape_order ⟨none, none, some [none, some [some "A", some "B"]]⟩).2.2.2
      [none] (some [some "A", some "B"]) [] "A B" rfl (by decide) (by decide)⟩

/-- **C4.** The PDF extractor returns the concatenation of the per-page
texts, in page order and non-empty, for an existing readable `.pdf` file
with extractable text; it returns `none` when the file is missing, lacks
a `.pdf` extension, or is unreadable. -/
theorem extract_text_from_pdf_correct (fs : FileSys) (p : String) :
    (∀ ps, fs.path_exists p = true → hasPdfExtension p = true →
        fs.pages p = some ps → String.join ps ≠ "" →
        extract_text_from_pdf fs p = some (String.join ps) ∧ String.join ps ≠ "") ∧
    (fs.path_exists p = false → extract_text_from_pdf fs p = none) ∧
    (hasPdfExtension p = false → extract_text_from_pdf fs p = none) ∧
    (fs.pages p = none → extract_text_from_pdf fs p = none) := by
  refine ⟨?_, ?_, ?_, ?_⟩
  · intro ps hex hext hpages hne
    exact ⟨by simp [extract_text_from_pdf, hex, hext, hpages], hne⟩
  · intro hex
    simp [extract_text_from_pdf, hex]
  · intro hext
    unfold extract_text_from_pdf
    rcases hex : fs.path_exists p with _ | _
    · simp
    · simp [hext]
  · intro hpages
    unfold extract_text_from_pdf
    rcases hex : fs.path_exists p with _ | _
    · simp
    · rcases hext : hasPdfExtension p with _ | _
      · simp
      · simp [hpages]

/-- Witness for C4: a one-file filesystem holding a two-page readable PDF. -/
theorem extract_text_from_pdf_correct_witness :
    extract_text_from_pdf
        ⟨fun q => q = "a.pdf", fun q => if q = "a.pdf" then some ["pg1 ", "pg2"] else none⟩
        "a.pdf" = some (String.join ["pg1 ", "pg2"]) ∧
      String.join ["pg1 ", "pg2"] ≠ "" :=
  ((extract_text_from_pdf_correct
      ⟨fun q => q = "a.pdf", fun q => if q = "a.pdf" then some ["pg1 ", "pg2"] else none⟩
      "a.pdf").1 ["pg1 ", "pg2"] (by decide) (by decide) (by decide) (by decide))

/-- **C5.** A multipart upload whose file has a non-empty filename not
ending in `.pdf` gets HTTP 400 with the 'Invalid file type' message, and
no extraction, LLM or TTS stage runs. -/
theorem invalid_file_type_rejected (env : Env) (req : HandlerRequest) (fname : String)
    (hfile : req.file = some fname)
    (hne : fname ≠ "")
    (hext : hasPdfExtension fname = false) :
    generate_podcast env req =
      (errResponse 400 "Invalid file type. Please upload a PDF.", ⟨false, false, false⟩) := by
  unfold generate_podcast
  rw [hfile]
  simp [hne, hext]

/-- Witness for C5: uploading `notes.txt`. -/
theorem invalid_file_type_rejected_witness :
    generate_podcast
        ⟨none, fun _ => none, fun _ => .raised, false, fun _ => .genFail, "a.mp3"⟩
        ⟨some "notes.txt", false, none⟩ =
      (errResponse 400 "Invalid file type. Please upload a PDF.", ⟨false, false, false⟩) :=
  invalid_file_type_rejected _ _ "notes.txt" rfl (by decide) (by decide)

/-- **C10.** A POST with no file part and a non-JSON body leaves the
extracted text as `None` and gets HTTP 400 with
'Could not extract text from the source.', with no stage invoked. -/
theorem no_file_no_json_returns_400 (env : Env) (src : Option String) :
    generate_podcast env ⟨none, false, src⟩ =
      (errResponse 400 "Could not extract text from the source.", ⟨false, false, false⟩) := by
  simp [generate_podcast, afterExtract]

/-- **C9.** When the extracted text is non-empty but all-whitespace, the
handler's falsy check on `paper_text` passes (no 400), the script
generator rejects the text at its own guard, and the endpoint returns
HTTP 500 'Failed to generate podcast script' (the LLM stage was invoked,
TTS was not). -/
theorem whitespace_text_returns_500 (env : Env) (text : String)
    (hne : text ≠ "") (hws : blankText text = true) :
    (∀ url, url ≠ "" → env.extract_url url = some text →
        generate_podcast env ⟨none, true, some url⟩ =
          (errResponse 500 "Failed to generate podcast script", ⟨true, true, false⟩)) ∧
    (∀ fname b src, fname ≠ "" → hasPdfExtension fname = true →
        env.extract_pdf = some text →
        generate_podcast env ⟨some fname, b, src⟩ =
          (errResponse 500 "Failed to generate podcast script", ⟨true, true, false⟩)) := by
  have hgen : generate_podcast_script text env.llm_call = (none, []) := by
    simp [generate_podcast_script, hws]
  constructor
  · intro url hurl hex
    simp [generate_podcast, afterExtract, hurl, hex, hne, hgen]
  · intro fname b src hfname hpdf hex
    simp [generate_podcast, afterExtract, hfname, hpdf, hex, hne, hgen]

/-- Witness for C9: a URL whose page text is a single space. -/
theorem whitespace_text_returns_500_witness :
    generate_podcast
        ⟨none, fun u => if u = "u" then some " " else none, fun _ => .raised, false,
          fun _ => .genFail, "a.mp3"⟩
        ⟨none, true, some "u"⟩ =
      (errResponse 500 "Failed to generate podcast script", ⟨true, true, false⟩) :=
  (whitespace_text_returns_500
      ⟨none, fun u => if u = "u" then some " " else none, fun _ => .raised, false,
        fun _ => .genFail, "a.mp3"⟩
      " " (by decide) (by decide)).1 "u" (by decide) (by decide)

/-- **C3, counterexample.** A TTS failure by a thrown error obtains no
audio bytes, yet the endpoint's response carries no `warning` field: the
exception handler at `app.py:358-362` falls through to the final return at
`app.py:364-368`, which never includes a warning.  Here extraction yields
`"T"`, the LLM returns the script `"a"`, and the single chunk's TTS
generation throws. -/
theorem tts_total_failure_counterexample :
    ttsLoop (fun _ => ChunkEvent.genRaise) (chunkScript "a".data) 0 none [] =
        (true, none, []) ∧
      (generate_podcast
          ⟨none, fun _ => some "T", fun _ => .ok ⟨some "a", none, none⟩, true,
            fun _ => ChunkEvent.genRaise, "x.mp3"⟩
          ⟨none, true, some "u"⟩).1 =
        { code := 200, error := none, status := some "success", script := some "a",
          audio_url := some none, warning := none } := by
  have hc : chunkScript "a".data = [['a']] :=
    chunkScript_short "a".data (by decide) (by decide)
  constructor
  · rw [hc]
    simp [ttsLoop]
  · have hgen : generate_podcast_script "T" (fun _ => .ok ⟨some "a", none, none⟩) =
        (some "a", []) := by decide
    simp [generate_podcast, afterExtract, hgen, ttsPhase, hc, ttsLoop]

/-- **C3, amended.** For a request that reaches speech synthesis -- whether
it arrived through the JSON/URL branch or the file-upload branch: if the
chunk loop finishes without a thrown error and no chunk's audio bytes were
obtained, the endpoint returns HTTP 200 with status 'success', the full
script, `audio_url` null and a warning; if instead a TTS error is thrown
before any audio bytes were obtained, the endpoint still returns HTTP 200
with status 'success' and the full script, but with no warning field and
with `audio_url` equal to the last generation URL the loop set (null if
none was set). -/
theorem tts_total_failure_degrades (env : Env) (text s : String)
    (htext : text ≠ "")
    (hscript : (generate_podcast_script text env.llm_call).1 = some s)
    (hs : s ≠ "")
    (hm : env.murf_available = true) :
    (∀ url, url ≠ "" → env.extract_url url = some text →
        (∀ u, ttsLoop env.tts_events (chunkScript s.data) 0 none [] = (false, u, []) →
            (generate_podcast env ⟨none, true, some url⟩).1 =
              { code := 200, error := none, status := some "success", script := some s,
                audio_url := some none,
                warning := some "Failed to generate audio. The text might be too long or contain unsupported characters." }) ∧
        (∀ u, ttsLoop env.tts_events (chunkScript s.data) 0 none [] = (true, u, []) →
            (generate_podcast env ⟨none, true, some url⟩).1 =
              { code := 200, error := none, status := some "success", script := some s,
                audio_url := some u, warning := none })) ∧
    (∀ fname b src, fname ≠ "" → hasPdfExtension fname = true →
        env.extract_pdf = some text →
        (∀ u, ttsLoop env.tts_events (chunkScript s.data) 0 none [] = (false, u, []) →
            (generate_podcast env ⟨some fname, b, src⟩).1 =
              { code := 200, error := none, status := some "success", script := some s,
                audio_url := some none,
                warning := some "Failed to generate audio. The text might be too long or contain unsupported characters." }) ∧
        (∀ u, ttsLoop env.tts_events (chunkScript s.data) 0 none [] = (true, u, []) →
            (generate_podcast env ⟨some fname, b, src⟩).1 =
              { code := 200, error := none, status := some "success", script := some s,
                audio_url := some u, warning := none })) := by
  have hafter : ∀ st : Stages, (afterExtract env (some text) st).1 = ttsPhase env s := by
    intro st
    cases hg : (generate_podcast_script text env.llm_call).1 with
    | none => rw [hg] at hscript; exact Option.noConfusion hscript
    | some s' =>
      rw [hg] at hscript
      injection hscript with hss
      subst hss
      simp [afterExtract, htext, hg, hs, hm]
  constructor
  · intro url hurl hex
    have hh : (generate_podcast env ⟨none, true, some url⟩).1 = ttsPhase env s := by
      have hstep : generate_podcast env ⟨none, true, some url⟩ =
          afterExtract env (some text) ⟨true, false, false⟩ := by
        simp [generate_podcast, hurl, hex]
      rw [hstep, hafter]
    constructor <;> intro u h <;> rw [hh] <;> simp [ttsPhase, hm, h]
  · intro fname b src hfname hpdf hex
    have hh : (generate_podcast env ⟨some fname, b, src⟩).1 = ttsPhase env s := by
      have hstep : generate_podcast env ⟨some fname, b, src⟩ =
          afterExtract env (some text) ⟨true, false, false⟩ := by
        simp [generate_podcast, hfname, hpdf, hex]
      rw [hstep, hafter]
    constructor <;> intro u h <;> rw [hh] <;> simp [ttsPhase, hm, h]

/-- Witness for C3 (amended): one chunk whose generation fails without
throwing; the response degrades to script-only with the warning. -/
theorem tts_total_failure_degrades_witness :
    (generate_podcast
        ⟨none, fun _ => some "T", fun _ => .ok ⟨some "a", none, none⟩, true,
          fun _ => ChunkEvent.genFail, "x.mp3"⟩
        ⟨none, true, some "u"⟩).1 =
      { code := 200, error := none, status := some "success", script := some "a",
        audio_url := some none,
        warning := some "Failed to generate audio. The text might be too long or contain unsupported characters." } :=
  (((tts_total_failure_degrades
        ⟨none, fun _ => some "T", fun _ => .ok ⟨some "a", none, none⟩, true,
          fun _ => ChunkEvent.genFail, "x.mp3"⟩
        "T" "a" (by decide) (by decide) (by decide) rfl).1 "u" (by decide) rfl).1) none
    (by rw [chunkScript_short "a".data (by decide) (by decide)]; simp [ttsLoop])
